import Mathlib

/-!
Shallow embedding of the request-encoding / response-decoding layer of
`RemoteMongoCollection` (realm-object-store, `src/sync/remote_mongo_collection.cpp`
and `.hpp`), together with theorems checking the natural-language specification
of that layer against the code.

The embedding follows the C++ source statement by statement:
- `nlohmann::json` values are modelled by the inductive `Json`; JSON objects are
  association lists in insertion order (the claims below never depend on the
  relative order of object keys, so the difference from `std::map` key order is
  immaterial).
- `nlohmann::json::parse` is modelled by the executable recursive-descent
  `jparse` (a black-box "parse text to a structured value or fail" primitive in
  the source; fractions and exponents of numbers are not modelled, no claim
  involves them).
- C++ exceptions that are caught by the enclosing `try`/`catch` blocks are
  modelled with `Except String`.
- `std::stoi` / `std::stoull` are modelled by `cppStoi` / `cppStoull`, with the
  C++ range errors (`int` range for `stoi`, `unsigned long long` range for
  `stoull`) made explicit.
- Each facade operation returns a `CallOutcome`: either the invocation channel
  is called with a function name and an argument document, or the completion is
  invoked locally (exactly once) with the operation's zero value and an error.
-/

namespace App

/-- Model of an `nlohmann::json` value. Objects are association lists in
insertion order. -/
inductive Json where
  | null
  | bool (b : Bool)
  | num (n : Int)
  | str (s : String)
  | arr (elems : List Json)
  | obj (fields : List (String × Json))

/-! ### Characters used by the parser -/

def quoteC : Char := Char.ofNat 34
def bslashC : Char := Char.ofNat 92
def lbraceC : Char := Char.ofNat 123
def rbraceC : Char := Char.ofNat 125

def skipWs (cs : List Char) : List Char := cs.dropWhile Char.isWhitespace

/-- Value of a digit string (most significant first). -/
def digitsVal (cs : List Char) : Nat := cs.foldl (fun a c => a * 10 + (c.toNat - 48)) 0

def unescapeChar (c : Char) : Option Char :=
  if c = quoteC then some quoteC
  else if c = bslashC then some bslashC
  else if c = '/' then some '/'
  else if c = 'n' then some (Char.ofNat 10)
  else if c = 't' then some (Char.ofNat 9)
  else if c = 'r' then some (Char.ofNat 13)
  else if c = 'b' then some (Char.ofNat 8)
  else if c = 'f' then some (Char.ofNat 12)
  else none

/-- Body of a JSON string literal, after the opening quote: returns the decoded
characters and the remaining input after the closing quote. -/
def parseStrChars : List Char → Option (List Char × List Char)
  | [] => none
  | c :: rest =>
    if c = quoteC then some ([], rest)
    else if c = bslashC then
      match rest with
      | [] => none
      | e :: rest2 =>
        match unescapeChar e with
        | some d =>
          match parseStrChars rest2 with
          | some (s, r) => some (d :: s, r)
          | none => none
        | none => none
    else
      match parseStrChars rest with
      | some (s, r) => some (c :: s, r)
      | none => none

/-- JSON number: optional minus sign followed by digits. Fractions and
exponents are not modelled (no claim involves them), so a following
`.`, `e` or `E` fails. -/
def parseNum (cs : List Char) : Option (Json × List Char) :=
  let signed : Bool × List Char :=
    match cs with
    | c :: rest => if c = '-' then (true, rest) else (false, cs)
    | [] => (false, cs)
  let ds := signed.2.takeWhile Char.isDigit
  let rest := signed.2.dropWhile Char.isDigit
  if ds.isEmpty then none
  else
    match rest with
    | c :: _ =>
      if c = '.' ∨ c = 'e' ∨ c = 'E' then none
      else some (Json.num (if signed.1 then -(Int.ofNat (digitsVal ds)) else Int.ofNat (digitsVal ds)), rest)
    | [] => some (Json.num (if signed.1 then -(Int.ofNat (digitsVal ds)) else Int.ofNat (digitsVal ds)), rest)

mutual

/-- Recursive-descent JSON value; `fuel` strictly decreases on every call. -/
def parseVal (fuel : Nat) (cs : List Char) : Option (Json × List Char) :=
  match fuel with
  | 0 => none
  | f + 1 =>
    match skipWs cs with
    | [] => none
    | c :: rest =>
      if c = quoteC then
        match parseStrChars rest with
        | some (s, r) => some (Json.str (String.mk s), r)
        | none => none
      else if c = lbraceC then parseObjBody f rest
      else if c = '[' then parseArrBody f rest
      else
        match c :: rest with
        | 't' :: 'r' :: 'u' :: 'e' :: r => some (Json.bool true, r)
        | 'f' :: 'a' :: 'l' :: 's' :: 'e' :: r => some (Json.bool false, r)
        | 'n' :: 'u' :: 'l' :: 'l' :: r => some (Json.null, r)
        | cs2 => parseNum cs2
termination_by structural fuel

/-- Object body, after the opening brace. -/
def parseObjBody (fuel : Nat) (cs : List Char) : Option (Json × List Char) :=
  match fuel with
  | 0 => none
  | f + 1 =>
    match skipWs cs with
    | c :: rest =>
      if c = rbraceC then some (Json.obj [], rest)
      else
        match parseMembers f cs with
        | some (ms, r) => some (Json.obj ms, r)
        | none => none
    | [] => none
termination_by structural fuel

/-- One or more `"key": value` members, up to and including the closing brace. -/
def parseMembers (fuel : Nat) (cs : List Char) : Option (List (String × Json) × List Char) :=
  match fuel with
  | 0 => none
  | f + 1 =>
    match skipWs cs with
    | c :: rest =>
      if c = quoteC then
        match parseStrChars rest with
        | some (k, r1) =>
          match skipWs r1 with
          | c2 :: r2 =>
            if c2 = ':' then
              match parseVal f r2 with
              | some (v, r3) =>
                match skipWs r3 with
                | c3 :: r4 =>
                  if c3 = ',' then
                    match parseMembers f r4 with
                    | some (ms, r5) => some ((String.mk k, v) :: ms, r5)
                    | none => none
                  else if c3 = rbraceC then some ([(String.mk k, v)], r4)
                  else none
                | [] => none
              | none => none
            else none
          | [] => none
        | none => none
      else none
    | [] => none
termination_by structural fuel

/-- Array body, after the opening bracket. -/
def parseArrBody (fuel : Nat) (cs : List Char) : Option (Json × List Char) :=
  match fuel with
  | 0 => none
  | f + 1 =>
    match skipWs cs with
    | c :: rest =>
      if c = ']' then some (Json.arr [], rest)
      else
        match parseElems f cs with
        | some (xs, r) => some (Json.arr xs, r)
        | none => none
    | [] => none
termination_by structural fuel

/-- One or more array elements, up to and including the closing bracket. -/
def parseElems (fuel : Nat) (cs : List Char) : Option (List Json × List Char) :=
  match fuel with
  | 0 => none
  | f + 1 =>
    match parseVal f cs with
    | some (v, r1) =>
      match skipWs r1 with
      | c :: r2 =>
        if c = ',' then
          match parseElems f r2 with
          | some (xs, r3) => some (v :: xs, r3)
          | none => none
        else if c = ']' then some ([v], r2)
        else none
      | [] => none
    | none => none
termination_by structural fuel

end

/-- Model of `nlohmann::json::parse`: parse the whole text to a `Json` value or
fail. The fuel is generous: every recursive step consumes input or nesting
bounded by the text length. -/
def jparse (text : String) : Except String Json :=
  match parseVal (4 * text.length + 8) text.data with
  | some (j, rest) =>
    if (skipWs rest).isEmpty then .ok j else .error "trailing characters after JSON value"
  | none => .error "malformed JSON"

/-! ### `std::stoi` / `std::stoull` -/

/-- Shared front end of the `strtol` family: skip whitespace, read an optional
sign and a nonempty digit run; `invalid_argument` when there is no digit. -/
def parseSignDigits (cs : List Char) : Except String (Bool × Nat) :=
  let cs1 := cs.dropWhile Char.isWhitespace
  let signed : Bool × List Char :=
    match cs1 with
    | c :: rest => if c = '-' then (true, rest) else if c = '+' then (false, rest) else (false, cs1)
    | [] => (false, cs1)
  let ds := signed.2.takeWhile Char.isDigit
  if ds.isEmpty then .error "invalid integer argument"
  else .ok (signed.1, digitsVal ds)

/-- `std::stoi`: result is an `int`; values outside the 32-bit signed range
raise `out_of_range` (which the source's `catch` turns into a malformed-JSON
error). -/
def cppStoi (s : String) : Except String Int := do
  let sd ← parseSignDigits s.data
  let i : Int := if sd.1 then -(Int.ofNat sd.2) else Int.ofNat sd.2
  if i < -(2 ^ 31) ∨ i > 2 ^ 31 - 1 then .error "stoi out of range" else pure i

/-- `std::stoull`: result is an `unsigned long long`; a leading minus sign
negates modulo 2^64; magnitudes above 2^64 - 1 raise `out_of_range`. -/
def cppStoull (s : String) : Except String Nat := do
  let sd ← parseSignDigits s.data
  if sd.2 > 2 ^ 64 - 1 then .error "stoull out of range"
  else pure (if sd.1 then (2 ^ 64 - sd.2 % 2 ^ 64) % 2 ^ 64 else sd.2)

/-- Implicit C++ conversion from `int` to the `uint64_t` completion parameter:
reduction modulo 2^64. -/
def intToU64 (i : Int) : Nat := (i % (2 ^ 64 : Int)).toNat

/-! ### Errors and data model -/

inductive ErrorCode where
  | malformedJson
  | other (n : Nat)
deriving DecidableEq, Repr

/-- `AppError` as the decoders see it: an error-code category and a message.
Transport errors arrive from the invocation channel as opaque `AppError`
values. -/
structure AppError where
  code : ErrorCode
  message : String
deriving DecidableEq, Repr

/-- `AppError(make_error_code(JSONErrorCode::malformed_json), e.what())`. -/
def malformedError (msg : String) : AppError := ⟨ErrorCode.malformedJson, msg⟩

/-- The facade's immutable identity: `RemoteMongoCollection(name, database_name)`. -/
structure RemoteMongoCollection where
  name : String
  database_name : String

/-- `m_base_operation_args`: `(database, collection)` recomputed into every
argument document. -/
def baseOperationArgs (c : RemoteMongoCollection) : List (String × Json) :=
  [("database", Json.str c.database_name), ("collection", Json.str c.name)]

/-- `RemoteFindOptions` (declared in `remote_mongo_result_types.hpp`, used via
`options.limit` / `options.projection_json` / `options.sort_json`, each an
optional accessed through `.value()`). -/
structure RemoteFindOptions where
  limit : Option Nat
  projection_json : Option String
  sort_json : Option String

/-- `RemoteFindOneAndModifyOptions`: `upsert` and `return_new_document` are
used in plain boolean contexts and pushed directly as JSON booleans, so they
are modelled as `Bool`; the two document options are optionals. -/
structure RemoteFindOneAndModifyOptions where
  upsert : Bool
  return_new_document : Bool
  projection_json : Option String
  sort_json : Option String

/-- `RemoteUpdateResult`; its zero value `{}` is `(0, 0, "")`. -/
structure RemoteUpdateResult where
  matched_count : Nat
  modified_count : Nat
  upserted_id : String
deriving DecidableEq, Repr

def updateZero : RemoteUpdateResult := ⟨0, 0, ""⟩

/-- Modelled from the spec: `util::Optional<T>::value()` (realm util, not part
of the two source files). The spec's error taxonomy has every locally raised
failure surface through the enclosing catch block as a malformed-JSON error,
so dereferencing an absent optional is modelled as a caught failure. -/
def optValue (o : Option String) : Except String String :=
  match o with
  | some v => Except.ok v
  | none => Except.error "bad optional access"

/-! ### Json accessors (`at`, `find`, `get<T>`) -/

def assocLookup : List (String × Json) → String → Option Json
  | [], _ => none
  | (k', v) :: rest, k => if k' = k then some v else assocLookup rest k

/-- `json.find(key) != json.end()` and the object view of `at`: `none` on a
non-object value (where `find` returns `end()`). -/
def Json.lookup : Json → String → Option Json
  | Json.obj fields, k => assocLookup fields k
  | _, _ => none

/-- `json.at(key)`: throws (here: errors) when the key is missing or the value
is not an object. -/
def Json.atKey (j : Json) (k : String) : Except String Json :=
  match j.lookup k with
  | some v => Except.ok v
  | none => Except.error ("key not found: " ++ k)

/-- `get<std::string>()`. -/
def Json.getStr : Json → Except String String
  | Json.str s => Except.ok s
  | _ => Except.error "type must be string"

/-- `get<std::vector<nlohmann::json>>()`. -/
def Json.getArr : Json → Except String (List Json)
  | Json.arr xs => Except.ok xs
  | _ => Except.error "type must be array"

/-! ### Argument builders

Each builder mirrors the body of the corresponding facade member up to the
`call_function` call; a thrown exception anywhere in that body is the builder's
`Except.error`. -/

/-- `if (options.limit) args.push_back({"limit", options.limit.value()})`. -/
def pushLimit (fields : List (String × Json)) (limit : Option Nat) : List (String × Json) :=
  match limit with
  | some l => fields ++ [("limit", Json.num (Int.ofNat l))]
  | none => fields

/-- `if (flag) target.push_back({key, flag})`. -/
def pushFlag (fields : List (String × Json)) (k : String) (b : Bool) : List (String × Json) :=
  if b then fields ++ [(k, Json.bool b)] else fields

/-- The pair of option branches repeated at every find-family call site:

    if (options.projection_json) target.push_back({"project", parse(options.projection_json.value())});
    if (options.projection_json) target.push_back({"sort", parse(options.sort_json.value())});

Note that in the source the second branch, which attaches `sort`, is guarded by
the presence of the projection option, not of the sort option. -/
def appendProjectAndSort (fields : List (String × Json))
    (projection_json sort_json : Option String) : Except String (List (String × Json)) := do
  let f1 ← match projection_json with
    | some p => do
      let pj ← jparse p
      pure (fields ++ [("project", pj)])
    | none => pure fields
  if projection_json.isSome then
    let stext ← optValue sort_json
    let sj ← jparse stext
    pure (f1 ++ [("sort", sj)])
  else
    pure f1

/-- `RemoteMongoCollection::find` / `find_one` up to `call_function`: `query`
goes into the element; `limit`, `project` and `sort` are pushed onto the outer
`args` object after it has been built. -/
def findArgs (c : RemoteMongoCollection) (filter_json : String)
    (options : RemoteFindOptions) : Except String Json := do
  let q ← jparse filter_json
  let base_args := baseOperationArgs c ++ [("query", q)]
  let args : List (String × Json) := [("arguments", Json.arr [Json.obj base_args])]
  let args := pushLimit args options.limit
  let args ← appendProjectAndSort args options.projection_json options.sort_json
  pure (Json.obj args)

/-- `RemoteMongoCollection::count` up to `call_function`. In the source,
`base_args.push_back({"limit", limit})` runs only after `args` has been built
from a copy of `base_args`, so the transmitted document is unaffected by it. -/
def countArgs (c : RemoteMongoCollection) (filter_json : String)
    (_limit : Nat) : Except String Json := do
  let q ← jparse filter_json
  let base_args := baseOperationArgs c ++ [("query", q)]
  let args : List (String × Json) := [("arguments", Json.arr [Json.obj base_args])]
  pure (Json.obj args)

/-- `RemoteMongoCollection::insert_one` up to `call_function`. -/
def insertOneArgs (c : RemoteMongoCollection) (value_json : String) : Except String Json := do
  let d ← jparse value_json
  let base_args := baseOperationArgs c ++ [("document", d)]
  pure (Json.obj [("arguments", Json.arr [Json.obj base_args])])

/-- `RemoteMongoCollection::aggregate` up to `call_function`. -/
def aggregateArgs (c : RemoteMongoCollection) (pipeline : List String) : Except String Json := do
  let stages ← pipeline.mapM jparse
  let base_args := baseOperationArgs c ++ [("pipeline", Json.arr stages)]
  pure (Json.obj [("arguments", Json.arr [Json.obj base_args])])

/-- `RemoteMongoCollection::insert_many` up to `call_function`. -/
def insertManyArgs (c : RemoteMongoCollection) (documents : List String) : Except String Json := do
  let docs ← documents.mapM jparse
  let base_args := baseOperationArgs c ++ [("documents", Json.arr docs)]
  pure (Json.obj [("arguments", Json.arr [Json.obj base_args])])

/-- `RemoteMongoCollection::delete_one` / `delete_many` up to `call_function`. -/
def deleteArgs (c : RemoteMongoCollection) (filter_json : String) : Except String Json := do
  let q ← jparse filter_json
  let base_args := baseOperationArgs c ++ [("query", q)]
  pure (Json.obj [("arguments", Json.arr [Json.obj base_args])])

/-- `RemoteMongoCollection::update_one` up to `call_function`: `query`,
`update` and `upsert` are all pushed into `base_args` (the element) before
`args` is built. -/
def updateOneArgs (c : RemoteMongoCollection) (filter_json update_json : String)
    (upsert : Bool) : Except String Json := do
  let q ← jparse filter_json
  let u ← jparse update_json
  let base_args := baseOperationArgs c ++ [("query", q), ("update", u), ("upsert", Json.bool upsert)]
  pure (Json.obj [("arguments", Json.arr [Json.obj base_args])])

/-- `RemoteMongoCollection::update_many` up to `call_function`: `upsert` is
pushed onto the outer `args` object after it has been built, not into the
element. -/
def updateManyArgs (c : RemoteMongoCollection) (filter_json update_json : String)
    (upsert : Bool) : Except String Json := do
  let q ← jparse filter_json
  let u ← jparse update_json
  let base_args := baseOperationArgs c ++ [("query", q), ("update", u)]
  let args : List (String × Json) := [("arguments", Json.arr [Json.obj base_args])]
  let args := args ++ [("upsert", Json.bool upsert)]
  pure (Json.obj args)

/-- `RemoteMongoCollection::find_one_and_update` up to `call_function`: all
present modifier fields are pushed into `base_args` (the element) before
`args` is built. -/
def findOneAndUpdateArgs (c : RemoteMongoCollection) (filter_json update_json : String)
    (options : RemoteFindOneAndModifyOptions) : Except String Json := do
  let q ← jparse filter_json
  let u ← jparse update_json
  let base_args := baseOperationArgs c ++ [("query", q), ("update", u)]
  let base_args := pushFlag base_args "upsert" options.upsert
  let base_args := pushFlag base_args "returnNewDocument" options.return_new_document
  let base_args ← appendProjectAndSort base_args options.projection_json options.sort_json
  pure (Json.obj [("arguments", Json.arr [Json.obj base_args])])

/-- `RemoteMongoCollection::find_one_and_replace` up to `call_function`: the
replacement is sent under `update`; present modifier fields are pushed onto the
outer `args` object. -/
def findOneAndReplaceArgs (c : RemoteMongoCollection) (filter_json replacement_json : String)
    (options : RemoteFindOneAndModifyOptions) : Except String Json := do
  let q ← jparse filter_json
  let u ← jparse replacement_json
  let base_args := baseOperationArgs c ++ [("query", q), ("update", u)]
  let args : List (String × Json) := [("arguments", Json.arr [Json.obj base_args])]
  let args := pushFlag args "upsert" options.upsert
  let args := pushFlag args "returnNewDocument" options.return_new_document
  let args ← appendProjectAndSort args options.projection_json options.sort_json
  pure (Json.obj args)

/-- `RemoteMongoCollection::find_one_and_delete` up to `call_function`: present
modifier fields are pushed onto the outer `args` object. -/
def findOneAndDeleteArgs (c : RemoteMongoCollection) (filter_json : String)
    (options : RemoteFindOneAndModifyOptions) : Except String Json := do
  let q ← jparse filter_json
  let base_args := baseOperationArgs c ++ [("query", q)]
  let args : List (String × Json) := [("arguments", Json.arr [Json.obj base_args])]
  let args := pushFlag args "upsert" options.upsert
  let args := pushFlag args "returnNewDocument" options.return_new_document
  let args ← appendProjectAndSort args options.projection_json options.sort_json
  pure (Json.obj args)

/-! ### Facade operations up to the channel boundary -/

/-- Outcome of a facade call at the channel boundary: either the invocation
channel is called (`invoked`, with the exact function name and argument
document), or the builder threw and the completion was invoked locally, exactly
once, with the operation's zero value and the caught error. -/
inductive CallOutcome (ρ : Type) where
  | invoked (functionName : String) (args : Json)
  | completedLocally (result : ρ) (err : AppError)

def dispatch {ρ : Type} (functionName : String) (zero : ρ)
    (built : Except String Json) : CallOutcome ρ :=
  match built with
  | Except.ok args => CallOutcome.invoked functionName args
  | Except.error msg => CallOutcome.completedLocally zero (malformedError msg)

def find (c : RemoteMongoCollection) (filter_json : String)
    (options : RemoteFindOptions) : CallOutcome String :=
  dispatch "find" "" (findArgs c filter_json options)

def find_one (c : RemoteMongoCollection) (filter_json : String)
    (options : RemoteFindOptions) : CallOutcome String :=
  dispatch "findOne" "" (findArgs c filter_json options)

def insert_one (c : RemoteMongoCollection) (value_json : String) : CallOutcome String :=
  dispatch "insertOne" "" (insertOneArgs c value_json)

def aggregate (c : RemoteMongoCollection) (pipeline : List String) : CallOutcome String :=
  dispatch "aggregate" "" (aggregateArgs c pipeline)

def count (c : RemoteMongoCollection) (filter_json : String) (limit : Nat) : CallOutcome Nat :=
  dispatch "count" 0 (countArgs c filter_json limit)

def insert_many (c : RemoteMongoCollection) (documents : List String) :
    CallOutcome (List (Nat × String)) :=
  dispatch "insertMany" [] (insertManyArgs c documents)

def delete_one (c : RemoteMongoCollection) (filter_json : String) : CallOutcome Nat :=
  dispatch "deleteOne" 0 (deleteArgs c filter_json)

def delete_many (c : RemoteMongoCollection) (filter_json : String) : CallOutcome Nat :=
  dispatch "deleteMany" 0 (deleteArgs c filter_json)

def update_one (c : RemoteMongoCollection) (filter_json update_json : String)
    (upsert : Bool) : CallOutcome RemoteUpdateResult :=
  dispatch "updateOne" updateZero (updateOneArgs c filter_json update_json upsert)

def update_many (c : RemoteMongoCollection) (filter_json update_json : String)
    (upsert : Bool) : CallOutcome RemoteUpdateResult :=
  dispatch "updateMany" updateZero (updateManyArgs c filter_json update_json upsert)

def find_one_and_update (c : RemoteMongoCollection) (filter_json update_json : String)
    (options : RemoteFindOneAndModifyOptions) : CallOutcome String :=
  dispatch "findOneAndUpdate" "" (findOneAndUpdateArgs c filter_json update_json options)

def find_one_and_replace (c : RemoteMongoCollection) (filter_json replacement_json : String)
    (options : RemoteFindOneAndModifyOptions) : CallOutcome String :=
  dispatch "findOneAndReplace" "" (findOneAndReplaceArgs c filter_json replacement_json options)

def find_one_and_delete (c : RemoteMongoCollection) (filter_json : String)
    (options : RemoteFindOneAndModifyOptions) : CallOutcome Unit :=
  dispatch "findOneAndDelete" () (findOneAndDeleteArgs c filter_json options)

/-! ### Response decoders

Each handler has the shape

    if (value && !error) { try { decode; completion(result, error); }
                           catch (e) { completion(zero, malformed(e)); } }
    completion(zero, error);

modelled by `wrapDecode`: the completion's pair `(result, reported error)` is
the function's value. -/

def wrapDecode {ρ : Type} (zero : ρ) (decode : String → Except String ρ)
    (error : Option AppError) (value : Option String) : ρ × Option AppError :=
  match value, error with
  | some v, none =>
    match decode v with
    | Except.ok r => (r, none)
    | Except.error msg => (zero, some (malformedError msg))
  | _, _ => (zero, error)

/-- `handle_response`: pass the raw JSON text through unchanged. -/
def handle_response (error : Option AppError) (value : Option String) :
    String × Option AppError :=
  match value, error with
  | some v, none => (v, none)
  | _, _ => ("", error)

/-- Decode body of `handle_count_response`: top-level `$numberLong` wrapped
string, `std::stoi`, implicit conversion to `uint64_t`. -/
def decodeCount (payload : String) : Except String Nat := do
  let j ← jparse payload
  let c ← j.atKey "$numberLong"
  let s ← c.getStr
  let i ← cppStoi s
  pure (intToU64 i)

def handle_count_response (error : Option AppError) (value : Option String) :
    Nat × Option AppError :=
  wrapDecode 0 decodeCount error value

/-- Decode body of `handle_delete_count_response`: `deletedCount.$numberInt`
wrapped string, `std::stoi`, implicit conversion to `uint64_t`. -/
def decodeDeleteCount (payload : String) : Except String Nat := do
  let j ← jparse payload
  let dc ← j.atKey "deletedCount"
  let ni ← dc.atKey "$numberInt"
  let s ← ni.getStr
  let i ← cppStoi s
  pure (intToU64 i)

def handle_delete_count_response (error : Option AppError) (value : Option String) :
    Nat × Option AppError :=
  wrapDecode 0 decodeDeleteCount error value

/-- Decode body of `handle_update_response`: `matchedCount.$numberInt` and
`modifiedCount.$numberInt` through `std::stoull`; `upsertedId.$oid` only when
`json.find("upsertedId")` hits, else the empty string. -/
def decodeUpdate (payload : String) : Except String RemoteUpdateResult := do
  let j ← jparse payload
  let mc ← j.atKey "matchedCount"
  let mcn ← mc.atKey "$numberInt"
  let matched_count_string ← mcn.getStr
  let matched_count ← cppStoull matched_count_string
  let mo ← j.atKey "modifiedCount"
  let mon ← mo.atKey "$numberInt"
  let modified_count_string ← mon.getStr
  let modified_count ← cppStoull modified_count_string
  let upserted_id ← match j.lookup "upsertedId" with
    | some _ => do
      let u ← j.atKey "upsertedId"
      let o ← u.atKey "$oid"
      o.getStr
    | none => pure ""
  pure ⟨matched_count, modified_count, upserted_id⟩

def handle_update_response (error : Option AppError) (value : Option String) :
    RemoteUpdateResult × Option AppError :=
  wrapDecode updateZero decodeUpdate error value

/-- The loop inside `insert_many`'s completion: index `i` starts at 0 and is
incremented once per array element; each element contributes `$oid` at the
current index. The `std::map` is modelled as the list of its entries, which the
strictly increasing keys keep in insertion order. -/
def decodeOids (elems : List Json) (i : Nat) : Except String (List (Nat × String)) :=
  match elems with
  | [] => pure []
  | e :: rest => do
    let o ← e.atKey "$oid"
    let oid ← o.getStr
    let tail ← decodeOids rest (i + 1)
    pure ((i, oid) :: tail)

/-- Decode body of `insert_many`'s completion lambda. -/
def decodeInsertMany (payload : String) : Except String (List (Nat × String)) := do
  let j ← jparse payload
  let ids ← j.atKey "insertedIds"
  let elems ← ids.getArr
  decodeOids elems 0

def handle_insert_many_response (error : Option AppError) (value : Option String) :
    List (Nat × String) × Option AppError :=
  wrapDecode [] decodeInsertMany error value

/-- `find_one_and_delete`'s completion lambda: the payload is discarded and only
the channel's error is surfaced. -/
def handle_delete_response (error : Option AppError) (_value : Option String) :
    Option AppError :=
  error

/-! ### Views of a channel invocation -/

/-- The argument document an invocation carries (`Json.null` when the channel
was not invoked). -/
def outcomeArgs {ρ : Type} : CallOutcome ρ → Json
  | CallOutcome.invoked _ args => args
  | CallOutcome.completedLocally _ _ => Json.null

/-- The element object of an argument document: the single entry of its
`arguments` array. -/
def elementOf (j : Json) : Json :=
  match j.lookup "arguments" with
  | some (Json.arr [e]) => e
  | _ => Json.null

/-! ### Helper lemmas -/

theorem ebind_ok {α β : Type} (a : α) (f : α → Except String β) :
    (Except.ok a >>= f) = f a := rfl

theorem ebind_err {α β : Type} (e : String) (f : α → Except String β) :
    ((Except.error e : Except String α) >>= f) = Except.error e := rfl

theorem epure {α : Type} (a : α) : (pure a : Except String α) = Except.ok a := rfl

/-! ### Claims -/

/-- Claim C1: evaluation of `find` at the failing input. The caller supplies a
syntactically valid sort option and no projection option, yet the transmitted
argument document carries no `sort` field at all (neither at the outer envelope
nor in the element): the branch that attaches `sort` is guarded by the presence
of the projection option, so the "sort included iff the sort option is present"
claim fails in the only-sort direction. -/
theorem claim1_sort_only_option_never_transmitted :
    find ⟨"coll", "db"⟩ "\x7b\x7d" ⟨none, none, some "\x7b\"a\":1\x7d"⟩ =
      CallOutcome.invoked "find"
        (Json.obj [("arguments", Json.arr [Json.obj [("database", Json.str "db"),
          ("collection", Json.str "coll"), ("query", Json.obj [])]])]) := rfl

/-- Claim C2: evaluation of `count` at the failing input. With a valid filter
and limit 5, the transmitted argument document contains `query` in the element
but no `limit` field anywhere: the source pushes `limit` into `base_args` only
after `args` has already been built from a copy of `base_args`. -/
theorem claim2_count_limit_never_transmitted :
    count ⟨"coll", "db"⟩ "\x7b\x7d" 5 =
      CallOutcome.invoked "count"
        (Json.obj [("arguments", Json.arr [Json.obj [("database", Json.str "db"),
          ("collection", Json.str "coll"), ("query", Json.obj [])]])]) := rfl

/-- Claim C3, counterexample: for `update_many` the `upsert` field is NOT in
the element object but at the outer envelope, and for `find_one_and_delete` the
present modifier fields are likewise at the outer envelope, not in the element
object. -/
theorem claim3_upsert_not_in_element_counterexample :
    (elementOf (outcomeArgs (update_many ⟨"coll", "db"⟩ "\x7b\x7d" "\x7b\x7d" true))).lookup
        "upsert" = none
    ∧ (outcomeArgs (update_many ⟨"coll", "db"⟩ "\x7b\x7d" "\x7b\x7d" true)).lookup
        "upsert" = some (Json.bool true)
    ∧ (elementOf (outcomeArgs (find_one_and_delete ⟨"coll", "db"⟩ "\x7b\x7d"
        ⟨true, true, some "\x7b\x7d", some "\x7b\x7d"⟩))).lookup "upsert" = none
    ∧ (outcomeArgs (find_one_and_delete ⟨"coll", "db"⟩ "\x7b\x7d"
        ⟨true, true, some "\x7b\x7d", some "\x7b\x7d"⟩)).lookup "upsert" =
        some (Json.bool true) :=
  ⟨rfl, rfl, rfl, rfl⟩

/-- Claim C3, amended: `update_one` places `upsert` inside the element object,
while `update_many` places it at the outer envelope; `find_one_and_update`
places the modifier fields it includes inside the element object, while
`find_one_and_delete` places them at the outer envelope. -/
theorem claim3_amended_modifier_placement
    (c : RemoteMongoCollection) (f u p s : String) (b : Bool) (jf ju jp js : Json)
    (hf : jparse f = Except.ok jf) (hu : jparse u = Except.ok ju)
    (hp : jparse p = Except.ok jp) (hs : jparse s = Except.ok js) :
    update_one c f u b = CallOutcome.invoked "updateOne"
      (Json.obj [("arguments", Json.arr [Json.obj (baseOperationArgs c ++
        [("query", jf), ("update", ju), ("upsert", Json.bool b)])])])
    ∧ update_many c f u b = CallOutcome.invoked "updateMany"
      (Json.obj [("arguments", Json.arr [Json.obj (baseOperationArgs c ++
        [("query", jf), ("update", ju)])]), ("upsert", Json.bool b)])
    ∧ find_one_and_update c f u ⟨true, true, some p, some s⟩ =
      CallOutcome.invoked "findOneAndUpdate"
        (Json.obj [("arguments", Json.arr [Json.obj (baseOperationArgs c ++
          [("query", jf), ("update", ju), ("upsert", Json.bool true),
           ("returnNewDocument", Json.bool true), ("project", jp), ("sort", js)])])])
    ∧ find_one_and_delete c f ⟨true, true, some p, some s⟩ =
      CallOutcome.invoked "findOneAndDelete"
        (Json.obj [("arguments", Json.arr [Json.obj (baseOperationArgs c ++
          [("query", jf)])]), ("upsert", Json.bool true),
          ("returnNewDocument", Json.bool true), ("project", jp), ("sort", js)]) := by
  refine ⟨?_, ?_, ?_, ?_⟩ <;>
    simp [update_one, update_many, find_one_and_update, find_one_and_delete, dispatch,
      updateOneArgs, updateManyArgs, findOneAndUpdateArgs, findOneAndDeleteArgs,
      pushFlag, appendProjectAndSort, optValue, hf, hu, hp, hs, ebind_ok, epure]

/-- Claim C3, witness: the amended placement statement at concrete inputs. -/
theorem claim3_amended_modifier_placement_witness :
    jparse "\x7b\x7d" = Except.ok (Json.obj [])
    ∧ (update_one ⟨"coll", "db"⟩ "\x7b\x7d" "\x7b\x7d" true =
        CallOutcome.invoked "updateOne"
          (Json.obj [("arguments", Json.arr [Json.obj (baseOperationArgs ⟨"coll", "db"⟩ ++
            [("query", Json.obj []), ("update", Json.obj []), ("upsert", Json.bool true)])])])
      ∧ update_many ⟨"coll", "db"⟩ "\x7b\x7d" "\x7b\x7d" true =
        CallOutcome.invoked "updateMany"
          (Json.obj [("arguments", Json.arr [Json.obj (baseOperationArgs ⟨"coll", "db"⟩ ++
            [("query", Json.obj []), ("update", Json.obj [])])]), ("upsert", Json.bool true)])
      ∧ find_one_and_update ⟨"coll", "db"⟩ "\x7b\x7d" "\x7b\x7d"
          ⟨true, true, some "\x7b\x7d", some "\x7b\x7d"⟩ =
        CallOutcome.invoked "findOneAndUpdate"
          (Json.obj [("arguments", Json.arr [Json.obj (baseOperationArgs ⟨"coll", "db"⟩ ++
            [("query", Json.obj []), ("update", Json.obj []), ("upsert", Json.bool true),
             ("returnNewDocument", Json.bool true), ("project", Json.obj []),
             ("sort", Json.obj [])])])])
      ∧ find_one_and_delete ⟨"coll", "db"⟩ "\x7b\x7d"
          ⟨true, true, some "\x7b\x7d", some "\x7b\x7d"⟩ =
        CallOutcome.invoked "findOneAndDelete"
          (Json.obj [("arguments", Json.arr [Json.obj (baseOperationArgs ⟨"coll", "db"⟩ ++
            [("query", Json.obj [])])]), ("upsert", Json.bool true),
            ("returnNewDocument", Json.bool true), ("project", Json.obj []),
            ("sort", Json.obj [])])) :=
  ⟨rfl, claim3_amended_modifier_placement ⟨"coll", "db"⟩ "\x7b\x7d" "\x7b\x7d" "\x7b\x7d"
    "\x7b\x7d" true (Json.obj []) (Json.obj []) (Json.obj []) (Json.obj [])
    rfl rfl rfl rfl⟩

/-- Claim C4: the uniform error-priority rule. Whenever the channel reports an
error, every decoder forwards that error unchanged together with the
operation's zero value (empty string, 0, zero update structure, empty mapping,
nothing), for every payload value, present or absent; the output never depends
on the payload's content, so no parse of it is attempted. -/
theorem claim4_error_priority (e : AppError) (value : Option String) :
    handle_response (some e) value = ("", some e)
    ∧ handle_count_response (some e) value = (0, some e)
    ∧ handle_delete_count_response (some e) value = (0, some e)
    ∧ handle_update_response (some e) value = (updateZero, some e)
    ∧ handle_insert_many_response (some e) value = ([], some e)
    ∧ handle_delete_response (some e) value = some e := by
  cases value <;> exact ⟨rfl, rfl, rfl, rfl, rfl, rfl⟩

/-- Claim C5: evaluation of `find` at the failing input. The supplied sort
option text is malformed JSON, but because the sort-attaching branch is guarded
by the (absent) projection option the text is never parsed: the invocation
channel IS called, contradicting "any malformed option text prevents the
channel invocation". -/
theorem claim5_malformed_sort_still_invokes_channel :
    find ⟨"coll", "db"⟩ "\x7b\x7d" ⟨none, none, some "\x7b"⟩ =
      CallOutcome.invoked "find"
        (Json.obj [("arguments", Json.arr [Json.obj [("database", Json.str "db"),
          ("collection", Json.str "coll"), ("query", Json.obj [])]])]) := rfl

/-- Extended-JSON wrapper `{"$numberInt": "<digits>"}`. -/
def numIntField (s : String) : Json := Json.obj [("$numberInt", Json.str s)]

/-- Extended-JSON wrapper `{"$oid": "<id>"}`. -/
def oidField (s : String) : Json := Json.obj [("$oid", Json.str s)]

theorem atKey_of_lookup_some {j v : Json} {k : String} (h : j.lookup k = some v) :
    j.atKey k = Except.ok v := by
  simp [Json.atKey, h]

theorem numIntField_atKey (s : String) :
    (numIntField s).atKey "$numberInt" = Except.ok (Json.str s) := rfl

theorem oidField_atKey (s : String) :
    (oidField s).atKey "$oid" = Except.ok (Json.str s) := rfl

theorem getStr_str (s : String) : (Json.str s).getStr = Except.ok s := rfl

/-- Claim C6: for a successfully parsed update payload, `matchedCount` and
`modifiedCount` are taken from their `$numberInt`-wrapped strings, and
`upsertedId` is taken from `upsertedId.$oid` exactly when the `upsertedId`
field is present — its absence is no error and leaves the empty string. -/
theorem claim6_update_decode
    (payload1 payload2 : String) (j1 j2 : Json) (m mo oid : String) (mv mov : Nat)
    (h1 : jparse payload1 = Except.ok j1)
    (hm1 : j1.lookup "matchedCount" = some (numIntField m))
    (hmo1 : j1.lookup "modifiedCount" = some (numIntField mo))
    (hup1 : j1.lookup "upsertedId" = none)
    (h2 : jparse payload2 = Except.ok j2)
    (hm2 : j2.lookup "matchedCount" = some (numIntField m))
    (hmo2 : j2.lookup "modifiedCount" = some (numIntField mo))
    (hup2 : j2.lookup "upsertedId" = some (oidField oid))
    (hsm : cppStoull m = Except.ok mv) (hsmo : cppStoull mo = Except.ok mov) :
    handle_update_response none (some payload1) = (⟨mv, mov, ""⟩, none)
    ∧ handle_update_response none (some payload2) = (⟨mv, mov, oid⟩, none) := by
  constructor <;>
    simp [handle_update_response, wrapDecode, decodeUpdate,
      h1, atKey_of_lookup_some hm1, atKey_of_lookup_some hmo1, hup1,
      h2, atKey_of_lookup_some hm2, atKey_of_lookup_some hmo2, hup2,
      atKey_of_lookup_some hup2, hsm, hsmo,
      numIntField_atKey, oidField_atKey, getStr_str, ebind_ok, epure]

/-- Claim C6, witness: the two payload shapes of the spec's decoding examples. -/
theorem claim6_update_decode_witness :
    jparse "\x7b\"matchedCount\":\x7b\"$numberInt\":\"2\"\x7d,\"modifiedCount\":\x7b\"$numberInt\":\"1\"\x7d\x7d"
      = Except.ok (Json.obj [("matchedCount", numIntField "2"), ("modifiedCount", numIntField "1")])
    ∧ (handle_update_response none
        (some "\x7b\"matchedCount\":\x7b\"$numberInt\":\"2\"\x7d,\"modifiedCount\":\x7b\"$numberInt\":\"1\"\x7d\x7d")
        = (⟨2, 1, ""⟩, none)
      ∧ handle_update_response none
        (some "\x7b\"matchedCount\":\x7b\"$numberInt\":\"2\"\x7d,\"modifiedCount\":\x7b\"$numberInt\":\"1\"\x7d,\"upsertedId\":\x7b\"$oid\":\"xyz\"\x7d\x7d")
        = (⟨2, 1, "xyz"⟩, none)) :=
  ⟨rfl, claim6_update_decode
    "\x7b\"matchedCount\":\x7b\"$numberInt\":\"2\"\x7d,\"modifiedCount\":\x7b\"$numberInt\":\"1\"\x7d\x7d"
    "\x7b\"matchedCount\":\x7b\"$numberInt\":\"2\"\x7d,\"modifiedCount\":\x7b\"$numberInt\":\"1\"\x7d,\"upsertedId\":\x7b\"$oid\":\"xyz\"\x7d\x7d"
    (Json.obj [("matchedCount", numIntField "2"), ("modifiedCount", numIntField "1")])
    (Json.obj [("matchedCount", numIntField "2"), ("modifiedCount", numIntField "1"),
      ("upsertedId", oidField "xyz")])
    "2" "1" "xyz" 2 1 rfl rfl rfl rfl rfl rfl rfl rfl rfl rfl⟩

/-- The mapping the insert-many loop produces when started at index `i`:
sequential indices paired with the identifier strings in array order. -/
def idxFrom : Nat → List String → List (Nat × String)
  | _, [] => []
  | i, s :: rest => (i, s) :: idxFrom (i + 1) rest

theorem decodeOids_oidField (ids : List String) : ∀ i : Nat,
    decodeOids (ids.map oidField) i = Except.ok (idxFrom i ids) := by
  induction ids with
  | nil => intro i; rfl
  | cons s rest ih =>
    intro i
    simp [decodeOids, oidField, Json.atKey, Json.lookup, assocLookup, Json.getStr,
      idxFrom, ebind_ok, epure, ih (i + 1)]

theorem idxFrom_map_fst (ids : List String) : ∀ i : Nat,
    (idxFrom i ids).map Prod.fst = (List.range ids.length).map (· + i) := by
  induction ids with
  | nil => intro i; rfl
  | cons s rest ih =>
    intro i
    simp [idxFrom, ih (i + 1), List.range_succ_eq_map, List.map_map]
    intro a _
    omega

/-- Claim C7: decoding an insert-many payload whose `insertedIds` field is an
array of `$oid` wrappers yields exactly the mapping from the sequential
zero-based indices to the identifier strings in array order, for every list of
identifier values; the keys are exactly `0 .. n-1`. -/
theorem claim7_insert_many_decode (payload : String) (j : Json) (ids : List String)
    (h : jparse payload = Except.ok j)
    (hids : j.lookup "insertedIds" = some (Json.arr (ids.map oidField))) :
    handle_insert_many_response none (some payload) = (idxFrom 0 ids, none)
    ∧ (idxFrom 0 ids).map Prod.fst = List.range ids.length := by
  constructor
  · simp [handle_insert_many_response, wrapDecode, decodeInsertMany, Json.atKey,
      Json.getArr, h, hids, ebind_ok, epure, decodeOids_oidField ids 0]
  · simpa using idxFrom_map_fst ids 0

/-- Claim C7, witness: the spec's decoding example
`{"insertedIds":[{"$oid":"a"},{"$oid":"b"}]}` yields the mapping
`{0: "a", 1: "b"}`. -/
theorem claim7_insert_many_decode_witness :
    handle_insert_many_response none
        (some "\x7b\"insertedIds\":[\x7b\"$oid\":\"a\"\x7d,\x7b\"$oid\":\"b\"\x7d]\x7d") =
      ([(0, "a"), (1, "b")], none)
    ∧ [(0, "a"), (1, "b")].map Prod.fst = List.range 2 :=
  claim7_insert_many_decode "\x7b\"insertedIds\":[\x7b\"$oid\":\"a\"\x7d,\x7b\"$oid\":\"b\"\x7d]\x7d"
    (Json.obj [("insertedIds", Json.arr [oidField "a", oidField "b"])]) ["a", "b"] rfl rfl

/-- Claim C8: evaluation of the count and delete-count decoders at the failing
input. 2147483648 = 2^31 fits `u64` comfortably, but both decoders parse the
wrapped digit string with `std::stoi`, whose result type is a 32-bit `int`, so
the parse raises `out_of_range` and the completion receives 0 together with a
locally synthesized malformed-JSON error instead of the value. -/
theorem claim8_count_decode_stoi_range :
    handle_count_response none (some "\x7b\"$numberLong\":\"2147483648\"\x7d") =
      (0, some (malformedError "stoi out of range"))
    ∧ handle_delete_count_response none
        (some "\x7b\"deletedCount\":\x7b\"$numberInt\":\"2147483648\"\x7d\x7d") =
      (0, some (malformedError "stoi out of range")) := ⟨rfl, rfl⟩

theorem findArgs_projNoSort (c : RemoteMongoCollection) (f : String)
    (o : RemoteFindOptions) (hp : o.projection_json.isSome = true)
    (hs : o.sort_json = none) : ∃ msg, findArgs c f o = Except.error msg := by
  obtain ⟨p, hpp⟩ := Option.isSome_iff_exists.mp hp
  cases hq : jparse f with
  | error e => exact ⟨e, by simp [findArgs, hq, ebind_err]⟩
  | ok q =>
    cases hpj : jparse p with
    | error e2 =>
      exact ⟨e2, by
        simp [findArgs, hq, hpp, hs, hpj, appendProjectAndSort, ebind_ok, ebind_err]⟩
    | ok pj =>
      exact ⟨"bad optional access", by
        simp [findArgs, hq, hpp, hs, hpj, appendProjectAndSort, optValue, ebind_ok, ebind_err]⟩

theorem findOneAndUpdateArgs_projNoSort (c : RemoteMongoCollection) (f u : String)
    (o : RemoteFindOneAndModifyOptions) (hp : o.projection_json.isSome = true)
    (hs : o.sort_json = none) : ∃ msg, findOneAndUpdateArgs c f u o = Except.error msg := by
  obtain ⟨p, hpp⟩ := Option.isSome_iff_exists.mp hp
  cases hq : jparse f with
  | error e => exact ⟨e, by simp [findOneAndUpdateArgs, hq, ebind_err]⟩
  | ok q =>
    cases hu : jparse u with
    | error e2 => exact ⟨e2, by simp [findOneAndUpdateArgs, hq, hu, ebind_ok, ebind_err]⟩
    | ok uj =>
      cases hpj : jparse p with
      | error e3 =>
        exact ⟨e3, by
          simp [findOneAndUpdateArgs, hq, hu, hpp, hs, hpj, appendProjectAndSort,
            ebind_ok, ebind_err]⟩
      | ok pj =>
        exact ⟨"bad optional access", by
          simp [findOneAndUpdateArgs, hq, hu, hpp, hs, hpj, appendProjectAndSort,
            optValue, ebind_ok, ebind_err]⟩

theorem findOneAndReplaceArgs_projNoSort (c : RemoteMongoCollection) (f u : String)
    (o : RemoteFindOneAndModifyOptions) (hp : o.projection_json.isSome = true)
    (hs : o.sort_json = none) : ∃ msg, findOneAndReplaceArgs c f u o = Except.error msg := by
  obtain ⟨p, hpp⟩ := Option.isSome_iff_exists.mp hp
  cases hq : jparse f with
  | error e => exact ⟨e, by simp [findOneAndReplaceArgs, hq, ebind_err]⟩
  | ok q =>
    cases hu : jparse u with
    | error e2 => exact ⟨e2, by simp [findOneAndReplaceArgs, hq, hu, ebind_ok, ebind_err]⟩
    | ok uj =>
      cases hpj : jparse p with
      | error e3 =>
        exact ⟨e3, by
          simp [findOneAndReplaceArgs, hq, hu, hpp, hs, hpj, appendProjectAndSort,
            ebind_ok, ebind_err]⟩
      | ok pj =>
        exact ⟨"bad optional access", by
          simp [findOneAndReplaceArgs, hq, hu, hpp, hs, hpj, appendProjectAndSort,
            optValue, ebind_ok, ebind_err]⟩

theorem findOneAndDeleteArgs_projNoSort (c : RemoteMongoCollection) (f : String)
    (o : RemoteFindOneAndModifyOptions) (hp : o.projection_json.isSome = true)
    (hs : o.sort_json = none) : ∃ msg, findOneAndDeleteArgs c f o = Except.error msg := by
  obtain ⟨p, hpp⟩ := Option.isSome_iff_exists.mp hp
  cases hq : jparse f with
  | error e => exact ⟨e, by simp [findOneAndDeleteArgs, hq, ebind_err]⟩
  | ok q =>
    cases hpj : jparse p with
    | error e2 =>
      exact ⟨e2, by
        simp [findOneAndDeleteArgs, hq, hpp, hs, hpj, appendProjectAndSort,
          ebind_ok, ebind_err]⟩
    | ok pj =>
      exact ⟨"bad optional access", by
        simp [findOneAndDeleteArgs, hq, hpp, hs, hpj, appendProjectAndSort,
          optValue, ebind_ok, ebind_err]⟩

/-- Claim C9: for every find-family call in which the projection option is
present but the sort option is absent, the builder dereferences the absent sort
option inside the `try` block, so the invocation channel is never called and
the completion is invoked locally, exactly once, with the operation's zero
value and a locally raised malformed-JSON error. -/
theorem claim9_projection_without_sort_local_error
    (c : RemoteMongoCollection) (f u : String)
    (fo : RemoteFindOptions) (mo : RemoteFindOneAndModifyOptions)
    (hfp : fo.projection_json.isSome = true) (hfs : fo.sort_json = none)
    (hmp : mo.projection_json.isSome = true) (hms : mo.sort_json = none) :
    (∃ msg, find c f fo = CallOutcome.completedLocally "" (malformedError msg))
    ∧ (∃ msg, find_one c f fo = CallOutcome.completedLocally "" (malformedError msg))
    ∧ (∃ msg, find_one_and_update c f u mo =
        CallOutcome.completedLocally "" (malformedError msg))
    ∧ (∃ msg, find_one_and_replace c f u mo =
        CallOutcome.completedLocally "" (malformedError msg))
    ∧ (∃ msg, find_one_and_delete c f mo =
        CallOutcome.completedLocally () (malformedError msg)) := by
  obtain ⟨m1, h1⟩ := findArgs_projNoSort c f fo hfp hfs
  obtain ⟨m3, h3⟩ := findOneAndUpdateArgs_projNoSort c f u mo hmp hms
  obtain ⟨m4, h4⟩ := findOneAndReplaceArgs_projNoSort c f u mo hmp hms
  obtain ⟨m5, h5⟩ := findOneAndDeleteArgs_projNoSort c f mo hmp hms
  exact ⟨⟨m1, by simp [find, dispatch, h1]⟩,
    ⟨m1, by simp [find_one, dispatch, h1]⟩,
    ⟨m3, by simp [find_one_and_update, dispatch, h3]⟩,
    ⟨m4, by simp [find_one_and_replace, dispatch, h4]⟩,
    ⟨m5, by simp [find_one_and_delete, dispatch, h5]⟩⟩

/-- Claim C9, witness: a caller supplying only a valid projection option (and a
valid filter) still gets a local malformed-JSON completion and no channel
invocation, on all five find-family operations. -/
theorem claim9_projection_without_sort_local_error_witness :
    (some "\x7b\x7d" : Option String).isSome = true
    ∧ ((∃ msg, find ⟨"coll", "db"⟩ "\x7b\x7d" ⟨none, some "\x7b\x7d", none⟩ =
          CallOutcome.completedLocally "" (malformedError msg))
      ∧ (∃ msg, find_one ⟨"coll", "db"⟩ "\x7b\x7d" ⟨none, some "\x7b\x7d", none⟩ =
          CallOutcome.completedLocally "" (malformedError msg))
      ∧ (∃ msg, find_one_and_update ⟨"coll", "db"⟩ "\x7b\x7d" "\x7b\x7d"
            ⟨false, false, some "\x7b\x7d", none⟩ =
          CallOutcome.completedLocally "" (malformedError msg))
      ∧ (∃ msg, find_one_and_replace ⟨"coll", "db"⟩ "\x7b\x7d" "\x7b\x7d"
            ⟨false, false, some "\x7b\x7d", none⟩ =
          CallOutcome.completedLocally "" (malformedError msg))
      ∧ (∃ msg, find_one_and_delete ⟨"coll", "db"⟩ "\x7b\x7d"
            ⟨false, false, some "\x7b\x7d", none⟩ =
          CallOutcome.completedLocally () (malformedError msg))) :=
  ⟨rfl, claim9_projection_without_sort_local_error ⟨"coll", "db"⟩ "\x7b\x7d" "\x7b\x7d"
    ⟨none, some "\x7b\x7d", none⟩ ⟨false, false, some "\x7b\x7d", none⟩ rfl rfl rfl rfl⟩

/-- Claim C10: when the channel completes with neither an error nor a payload
value, every decoder invokes the completion with the operation's zero value and
no error; the absent payload is not treated as a failure. -/
theorem claim10_no_value_no_error_zero :
    handle_response none none = ("", none)
    ∧ handle_count_response none none = (0, none)
    ∧ handle_delete_count_response none none = (0, none)
    ∧ handle_update_response none none = (updateZero, none)
    ∧ handle_insert_many_response none none = ([], none)
    ∧ handle_delete_response none none = none :=
  ⟨rfl, rfl, rfl, rfl, rfl, rfl⟩

end App

